import Mathlib

/-!
Shallow embedding of the GSS-Spark LifeLine firmware core
(`src/hardware/lifeline_tx_pro/lifeline_tx_pro.ino` and
`src/hardware/lifeline_rx_pro/lifeline_rx_pro.ino`).

Strings are modelled as `List Char`; the `int` variables of the C++ code are
modelled as `Int`; `millis()` timestamps as `Nat`.  `String::toInt` (newlib
`atol`, which calls `strtol` and clamps to `LONG_MAX`/`LONG_MIN` on overflow)
is modelled explicitly.  External collaborators (display drawing, LED, buzzer,
the LoRa radio itself, the HTTP dashboard push) have no firmware-visible
state; the radio outcome enters the model as an explicit boolean parameter.
-/

/-! ## Character helpers (C `isspace`, `isdigit` on ASCII) -/

/-- C `isspace`: space, \t, \n, \v, \f, \r. -/
def isSpaceC (c : Char) : Bool :=
  c.toNat = 32 || c.toNat = 9 || c.toNat = 10 || c.toNat = 11 ||
  c.toNat = 12 || c.toNat = 13

/-- C `isdigit`: '0'..'9'. -/
def isDigitC (c : Char) : Bool :=
  48 ≤ c.toNat && c.toNat ≤ 57

/-! ## `String::toInt` (newlib `atol` / `strtol`, base 10) -/

def LONG_MAX : Int := 2147483647
def LONG_MIN : Int := -2147483648

/-- `strtol` clamps an out-of-range value to `LONG_MAX` / `LONG_MIN`. -/
def clampLong (n : Int) : Int :=
  if n > LONG_MAX then LONG_MAX else if n < LONG_MIN then LONG_MIN else n

/-- Value of the leading run of decimal digits (0 when there is none). -/
def digitsNum (l : List Char) : Nat :=
  (l.takeWhile isDigitC).foldl (fun a c => 10 * a + (c.toNat - 48)) 0

/-- Model of Arduino `String::toInt` (newlib `atol`): skip leading whitespace,
optional sign, leading decimal digits; no digits means 0. -/
def atol (l : List Char) : Int :=
  let s := l.dropWhile isSpaceC
  if s.head? = some '-' then clampLong (-(digitsNum (s.drop 1) : Int))
  else if s.head? = some '+' then clampLong ((digitsNum (s.drop 1) : Int))
  else clampLong ((digitsNum s : Int))

/-- Arduino `String::indexOf(',')`, as `none` instead of −1. -/
def commaIdx : List Char → Option Nat
  | [] => none
  | c :: t => if c = ',' then some 0 else (commaIdx t).map (· + 1)

/-- Arduino `String::trim()`: strip leading and trailing whitespace. -/
def trimC (l : List Char) : List Char :=
  ((l.dropWhile isSpaceC).reverse.dropWhile isSpaceC).reverse

/-! ## PacketCodec: decode (`parseLoRaPacket`, lifeline_rx_pro.ino:1276-1326) -/

def ALERT_COUNT : Nat := 15

/-- Strip the optional `"TX"` prefix (rx line 1290-1292). -/
def stripTX (raw : List Char) : List Char :=
  if raw.take 2 = ['T', 'X'] then raw.drop 2 else raw

/-- Alert-code field interpretation (rx lines 1305-1312): a single letter
`A`-`O` (65..79) maps to 0..14, `a`-`o` (97..111) likewise, anything else
goes through `toInt`. -/
def rawAlertIndex (ap : List Char) : Int :=
  if ap.length = 1 ∧ 65 ≤ ap.headI.toNat ∧ ap.headI.toNat ≤ 79 then
    (ap.headI.toNat : Int) - 65
  else if ap.length = 1 ∧ 97 ≤ ap.headI.toNat ∧ ap.headI.toNat ≤ 111 then
    (ap.headI.toNat : Int) - 97
  else atol ap

/-- Range validation (rx lines 1314-1318): out of `[0, ALERT_COUNT)` is
clamped to the last catalog entry. -/
def clampIndex (i : Int) : Int :=
  if i < 0 ∨ (ALERT_COUNT : Int) ≤ i then (ALERT_COUNT : Int) - 1 else i

/-- Model of `parseLoRaPacket` on the received payload: strip optional "TX",
split at the first comma (reject `indexOf(',') <= 0`), `toInt` the id part,
interpret and clamp the alert part.  `none` is the `return false` path. -/
def parseLoRaPacket (raw : List Char) : Option (Int × Int) :=
  match commaIdx (stripTX raw) with
  | none => none
  | some c =>
    if c = 0 then none
    else
      some (atol ((stripTX raw).take c),
            clampIndex (rawAlertIndex (trimC ((stripTX raw).drop (c + 1)))))

/-! ## PacketCodec: encode (`transmitAlert`, lifeline_tx_pro.ino:1884-1915) -/

/-- Decimal digit character. -/
def digitChar (d : Nat) : Char := Char.ofNat (48 + d)

/-- Decimal digits of `n`, most significant first; the first argument is
recursion fuel (`n` itself always suffices). -/
def natDigitsF : Nat → Nat → List Char
  | 0, n => [digitChar n]
  | fuel + 1, n =>
    if n < 10 then [digitChar n]
    else natDigitsF fuel (n / 10) ++ [digitChar (n % 10)]

def natDigits (n : Nat) : List Char := natDigitsF n n

/-- Zero-pad on the left to width `w`. -/
def padZeroTo (w : Nat) (l : List Char) : List Char :=
  List.replicate (w - l.length) '0' ++ l

/-- `sprintf "%03d"`: at least three characters, zero padded; a negative
value keeps its sign and zero-pads the magnitude to width 2. -/
def fmt03d (n : Int) : List Char :=
  if n < 0 then '-' :: padZeroTo 2 (natDigits n.natAbs)
  else padZeroTo 3 (natDigits n.toNat)

/-- `getAlertCode` (tx lines 324-329): `'A' + index` in range, `'X'`
(the "Invalid" sentinel) otherwise. -/
def getAlertCode (index : Int) : Char :=
  if 0 ≤ index ∧ index < (ALERT_COUNT : Int) then Char.ofNat (65 + index.toNat)
  else 'X'

/-- The transmitter's compile-time `DEVICE_ID` (tx line 45). -/
def DEVICE_ID_TX : Int := 3

/-- The packet string built by `sprintf(packet, "TX%03d,%c", DEVICE_ID,
alertCode)` (tx line 1892), parameterized by the two inputs. -/
def encodePacket (deviceId : Int) (alertIndex : Int) : List Char :=
  'T' :: 'X' :: (fmt03d deviceId ++ ',' :: [getAlertCode alertIndex])

example : encodePacket 3 0 = "TX003,A".data := by decide
example : encodePacket 7 14 = "TX007,O".data := by decide
example : parseLoRaPacket "TX003,A".data = some (3, 0) := by decide
example : parseLoRaPacket "TX007,99".data = some (7, 14) := by decide
example : parseLoRaPacket "007,".data = some (7, 0) := by decide
example : parseLoRaPacket "TX007".data = none := by decide
example : parseLoRaPacket "abc,A".data = some (0, 0) := by decide

/-! ## Transmitter state machine (lifeline_tx_pro.ino) -/

/-- `ScreenState` enum (tx lines 355-363). -/
inductive TxScreen
  | boot | menu | confirm | sending | result | systemInfo | userManual
deriving DecidableEq, Repr

def MAX_RETRY_ATTEMPTS : Nat := 3
def RESULT_SUCCESS_TIME : Nat := 1800
def VISIBLE_MENU_ITEMS : Nat := 5
def MANUAL_TOTAL_PAGES : Nat := 4

/-- The transmitter's mutable state (tx lines 366-391, 377-381). -/
structure TxState where
  currentScreen : TxScreen
  previousScreen : TxScreen
  selectedAlertIndex : Int
  menuScrollOffset : Int
  manualPage : Int
  resultStartTime : Nat
  lastKeyPressTime : Nat
  lastTransmitTime : Nat
  lastTransmitSuccess : Bool
  retryCount : Int
  totalTransmissions : Int
  successfulTransmissions : Int
  loraInitialized : Bool
deriving DecidableEq, Repr

/-- Model of `transmitAlert` (tx lines 1884-1915).  `radioOk` is the result
of the blocking `LoRa.endPacket()` call (the radio is an external
collaborator); `now` stands for `millis()`.  Returns the success flag, the
payload put on the air (`none` when nothing was transmitted because the
radio never initialized), and the updated counters. -/
def transmitAlert (now : Nat) (radioOk : Bool) (s : TxState) :
    Bool × Option (List Char) × TxState :=
  if s.loraInitialized = false then (false, none, s)
  else
    let packet := encodePacket DEVICE_ID_TX s.selectedAlertIndex
    let s1 := { s with totalTransmissions := s.totalTransmissions + 1 }
    let s2 := if radioOk then
        { s1 with successfulTransmissions := s1.successfulTransmissions + 1,
                  lastTransmitTime := now }
      else s1
    (radioOk, some packet, s2)

/-- Arduino `constrain` on `int`. -/
def constrainI (x lo hi : Int) : Int :=
  if x < lo then lo else if x > hi then hi else x

/-- `updateMenuScroll` (tx lines 461-468). -/
def updateMenuScroll (s : TxState) : TxState :=
  let off :=
    if s.selectedAlertIndex < s.menuScrollOffset then s.selectedAlertIndex
    else if s.menuScrollOffset + (VISIBLE_MENU_ITEMS : Int) ≤ s.selectedAlertIndex then
      s.selectedAlertIndex - (VISIBLE_MENU_ITEMS : Int) + 1
    else s.menuScrollOffset
  { s with menuScrollOffset :=
      constrainI off 0 (max 0 ((ALERT_COUNT : Int) - (VISIBLE_MENU_ITEMS : Int))) }

/-- `handleMenuInput` (tx lines 1949-2020); drawing calls are external. -/
def handleMenuInput (key : Char) (s : TxState) : TxState :=
  if 49 ≤ key.toNat ∧ key.toNat ≤ 57 then
    let targetIndex : Int := (key.toNat : Int) - 49
    if targetIndex < (ALERT_COUNT : Int) then
      { s with selectedAlertIndex := targetIndex,
               previousScreen := .menu, currentScreen := .confirm }
    else s
  else if key = '0' ∧ 9 < ALERT_COUNT then
    { s with selectedAlertIndex := 9,
             previousScreen := .menu, currentScreen := .confirm }
  else if key = 'A' then
    updateMenuScroll { s with selectedAlertIndex :=
      if 0 < s.selectedAlertIndex then s.selectedAlertIndex - 1
      else (ALERT_COUNT : Int) - 1 }
  else if key = 'B' then
    updateMenuScroll { s with selectedAlertIndex :=
      if s.selectedAlertIndex < (ALERT_COUNT : Int) - 1 then s.selectedAlertIndex + 1
      else 0 }
  else if key = '*' then
    { s with previousScreen := .menu, currentScreen := .confirm }
  else if key = 'C' then
    { s with previousScreen := .menu, currentScreen := .systemInfo }
  else if key = 'D' then
    { s with previousScreen := .menu, manualPage := 0,
             currentScreen := .userManual }
  else s

/-- `handleConfirmInput` (tx lines 2022-2039): '*' enters Sending, performs
the synchronous transmit, records the outcome, resets the retry counter and
enters Result (`drawResultScreen` stamps `resultStartTime`, tx line 1476);
'#' cancels back to Menu. -/
def handleConfirmInput (now : Nat) (radioOk : Bool) (key : Char) (s : TxState) :
    TxState :=
  if key = '*' then
    let s1 := { s with currentScreen := .sending }
    let r := transmitAlert now radioOk s1
    { r.2.2 with lastTransmitSuccess := r.1, retryCount := 0,
                 currentScreen := .result, resultStartTime := now }
  else if key = '#' then { s with currentScreen := .menu }
  else s

/-- `handleResultInput` (tx lines 2041-2069): on success any key returns to
Menu; on failure '*' retries only while `retryCount < MAX_RETRY_ATTEMPTS - 1`
(re-entering Sending and transmitting again), '#' abandons to Menu resetting
the retry counter, and anything else does nothing. -/
def handleResultInput (now : Nat) (radioOk : Bool) (key : Char) (s : TxState) :
    TxState :=
  if s.lastTransmitSuccess then { s with currentScreen := .menu }
  else if key = '*' then
    if s.retryCount < (MAX_RETRY_ATTEMPTS : Int) - 1 then
      let s1 := { s with retryCount := s.retryCount + 1, currentScreen := .sending }
      let r := transmitAlert now radioOk s1
      { r.2.2 with lastTransmitSuccess := r.1, currentScreen := .result,
                   resultStartTime := now }
    else s
  else if key = '#' then
    { s with retryCount := 0, currentScreen := .menu }
  else s

/-- `handleUserManualInput` (tx lines 2077-2090). -/
def handleUserManualInput (key : Char) (s : TxState) : TxState :=
  if key = 'A' ∧ 0 < s.manualPage then { s with manualPage := s.manualPage - 1 }
  else if key = 'B' ∧ s.manualPage < (MANUAL_TOTAL_PAGES : Int) - 1 then
    { s with manualPage := s.manualPage + 1 }
  else if key = '#' ∨ key = '*' then { s with currentScreen := .menu }
  else s

/-- `handleKeyPress` (tx lines 1921-1947): dispatch by current screen, then
stamp `lastKeyPressTime`; the null key is ignored. -/
def handleKeyPress (now : Nat) (radioOk : Bool) (key : Char) (s : TxState) :
    TxState :=
  if key = '\x00' then s
  else
    let s1 :=
      match s.currentScreen with
      | .menu => handleMenuInput key s
      | .confirm => handleConfirmInput now radioOk key s
      | .result => handleResultInput now radioOk key s
      | .systemInfo => { s with currentScreen := .menu }
      | .userManual => handleUserManualInput key s
      | _ => s
    { s1 with lastKeyPressTime := now }

/-- The `SCREEN_RESULT` case of the transmitter `loop()` (tx lines
2192-2212): auto-return to Menu only on success after `RESULT_SUCCESS_TIME`,
then poll the keypad (`none` models "no key this iteration"). -/
def resultLoopStep (now : Nat) (radioOk : Bool) (key : Option Char)
    (s : TxState) : TxState :=
  let s1 :=
    if s.lastTransmitSuccess = true ∧ 0 < RESULT_SUCCESS_TIME ∧
        RESULT_SUCCESS_TIME ≤ now - s.resultStartTime then
      { s with currentScreen := .menu }
    else s
  match key with
  | none => s1
  | some k => handleKeyPress now radioOk k s1

/-! ## Receiver state machine (lifeline_rx_pro.ino) -/

/-- Receiver `ScreenState` enum (rx lines 340-344). -/
inductive RxScreen
  | boot | idle | alert | history | systemInfo
deriving DecidableEq, Repr

/-- `AlertRecord` (rx line 363). -/
structure AlertRecord where
  deviceId : Int
  alertIndex : Int
  rssi : Int
  timestamp : Nat
deriving DecidableEq, Repr

def HISTORY_MAX_ITEMS : Nat := 10
def ALERT_DISPLAY_TIME : Nat := 30000

/-- Receiver mutable state (rx lines 348-371 and the alert-screen fields of
lines 1245-1248). -/
structure RxState where
  currentScreen : RxScreen
  lastDeviceId : Int
  lastAlertIndex : Int
  lastRssi : Int
  alertReceivedTime : Nat
  alertHistory : List AlertRecord
  totalAlertsReceived : Nat
deriving DecidableEq, Repr

/-- The buffer update of `addToHistory` (rx lines 774-790): at capacity,
shift every element one slot left (dropping index 0, count becomes 9),
then append. -/
def pushHistory (h : List AlertRecord) (r : AlertRecord) : List AlertRecord :=
  (if HISTORY_MAX_ITEMS ≤ h.length then
      (h.drop 1).take (HISTORY_MAX_ITEMS - 1)
    else h) ++ [r]

/-- `addToHistory` (rx lines 774-790) acting on the receiver state. -/
def addToHistory (now : Nat) (deviceId alertIndex rssi : Int) (s : RxState) :
    RxState :=
  { s with alertHistory := pushHistory s.alertHistory ⟨deviceId, alertIndex, rssi, now⟩,
           totalAlertsReceived := s.totalAlertsReceived + 1 }

/-- State effects of `drawAlertScreen` (rx lines 1244-1258): record the
shown alert, restart the display timer, and append to history; drawing and
the tone are external. -/
def drawAlertScreenState (now : Nat) (deviceId alertIndex rssi : Int)
    (s : RxState) : RxState :=
  addToHistory now deviceId alertIndex rssi
    { s with lastDeviceId := deviceId, lastAlertIndex := alertIndex,
             lastRssi := rssi, alertReceivedTime := now }

/-- `shouldReturnToIdle` (rx lines 1263-1266). -/
def shouldReturnToIdle (now : Nat) (s : RxState) : Bool :=
  if s.currentScreen = RxScreen.alert then
    decide (ALERT_DISPLAY_TIME ≤ now - s.alertReceivedTime)
  else false

/-- One iteration of the receiver `loop()` (rx lines 1976-2089) outside the
provisioning portal.  `packet` is the raw LoRa payload received this
iteration (`none` when `LoRa.parsePacket()` returned 0), `packetRssi` its
RSSI, `bootDone` the result of `updateBootAnimation()`; the serial
debug/simulation channel and the dashboard push (both external, stateless
here) are omitted. -/
def rxLoopStep (now : Nat) (bootDone : Bool) (packet : Option (List Char))
    (packetRssi : Int) (s : RxState) : RxState :=
  match s.currentScreen with
  | .boot => if bootDone then { s with currentScreen := .idle } else s
  | .idle =>
    match packet.bind parseLoRaPacket with
    | none => s
    | some (d, a) =>
      drawAlertScreenState now d a packetRssi { s with currentScreen := .alert }
  | .alert =>
    let s1 :=
      match packet.bind parseLoRaPacket with
      | none => s
      | some (d, a) => drawAlertScreenState now d a packetRssi s
    if shouldReturnToIdle now s1 then { s1 with currentScreen := .idle } else s1
  | _ => s

/-- Spec §4.3 names the retry guard of `handleResultInput` (tx line 2049)
`canRetry`. -/
def canRetry (s : TxState) : Bool :=
  decide (s.retryCount < (MAX_RETRY_ATTEMPTS : Int) - 1)

/-! ## Helper lemmas about the character-level functions -/

lemma isDigitC_iff {c : Char} : isDigitC c = true ↔ 48 ≤ c.toNat ∧ c.toNat ≤ 57 := by
  simp [isDigitC]

lemma isSpaceC_eq_false {c : Char} (h : 33 ≤ c.toNat) : isSpaceC c = false := by
  simp only [isSpaceC, Bool.or_eq_false_iff, decide_eq_false_iff_not]
  omega

lemma isSpaceC_of_isDigitC {c : Char} (h : isDigitC c = true) : isSpaceC c = false := by
  rw [isDigitC_iff] at h
  exact isSpaceC_eq_false (by omega)

lemma isDigitC_ne {c : Char} (h : isDigitC c = true) :
    c ≠ ',' ∧ c ≠ '-' ∧ c ≠ '+' := by
  refine ⟨?_, ?_, ?_⟩ <;> intro he <;> rw [he] at h <;> exact absurd h (by decide)

lemma commaIdx_eq_none {l : List Char} (h : ∀ c ∈ l, c ≠ ',') :
    commaIdx l = none := by
  induction l with
  | nil => rfl
  | cons c t ih =>
    have hc := h c (by simp)
    have ht := ih (fun x hx => h x (by simp [hx]))
    simp [commaIdx, hc, ht]

lemma commaIdx_append {l r : List Char} (h : ∀ c ∈ l, c ≠ ',') :
    commaIdx (l ++ ',' :: r) = some l.length := by
  induction l with
  | nil => simp [commaIdx]
  | cons c t ih =>
    have hc := h c (by simp)
    have ht := ih (fun x hx => h x (by simp [hx]))
    simp [commaIdx, hc, ht]

lemma takeWhile_eq_self_of {p : Char → Bool} {l : List Char}
    (h : ∀ c ∈ l, p c = true) : l.takeWhile p = l := by
  induction l with
  | nil => rfl
  | cons c t ih =>
    simp [List.takeWhile_cons, h c (by simp), ih (fun x hx => h x (by simp [hx]))]

lemma takeWhile_eq_nil_of {p : Char → Bool} {l : List Char}
    (h : ∀ c ∈ l, p c = false) : l.takeWhile p = [] := by
  cases l with
  | nil => rfl
  | cons c t => simp [List.takeWhile_cons, h c (by simp)]

lemma digitChar_facts : ∀ d < 10,
    (digitChar d).toNat = 48 + d ∧ isDigitC (digitChar d) = true := by decide

lemma natDigitsF_ne_nil (fuel n : Nat) : natDigitsF fuel n ≠ [] := by
  cases fuel with
  | zero => simp [natDigitsF]
  | succ fuel => by_cases h : n < 10 <;> simp [natDigitsF, h]

lemma natDigitsF_digits (fuel : Nat) :
    ∀ n, n ≤ fuel → ∀ c ∈ natDigitsF fuel n, isDigitC c = true := by
  induction fuel with
  | zero =>
    intro n hn c hc
    interval_cases n
    simp [natDigitsF] at hc
    subst hc
    decide
  | succ fuel ih =>
    intro n hn c hc
    by_cases h10 : n < 10
    · simp [natDigitsF, h10] at hc
      subst hc
      exact (digitChar_facts n h10).2
    · simp [natDigitsF, h10] at hc
      rcases hc with hc | hc
      · have hlt : n / 10 ≤ fuel := by
          have := Nat.div_lt_self (show 0 < n by omega) (show 1 < 10 by omega)
          omega
        exact ih (n / 10) hlt c hc
      · subst hc
        exact (digitChar_facts (n % 10) (Nat.mod_lt _ (by omega))).2

lemma natDigitsF_val (fuel : Nat) : ∀ n a, n ≤ fuel →
    (natDigitsF fuel n).foldl (fun a c => 10 * a + (c.toNat - 48)) a =
      a * 10 ^ (natDigitsF fuel n).length + n := by
  induction fuel with
  | zero =>
    intro n a hn
    interval_cases n
    simp [natDigitsF, List.foldl]
    have h0 : (digitChar 0).toNat = 48 + 0 := (digitChar_facts 0 (by omega)).1
    rw [h0]
    ring_nf
  | succ fuel ih =>
    intro n a hn
    by_cases h10 : n < 10
    · have hv := (digitChar_facts n h10).1
      simp [natDigitsF, h10, List.foldl, hv]
      ring_nf
    · have hne : natDigitsF (fuel + 1) n =
          natDigitsF fuel (n / 10) ++ [digitChar (n % 10)] := by
        simp [natDigitsF, h10]
      have hdiv : n / 10 ≤ fuel := by
        have := Nat.div_lt_self (show 0 < n by omega) (show 1 < 10 by omega)
        omega
      have hm := (digitChar_facts (n % 10) (Nat.mod_lt _ (by omega))).1
      have hdm := Nat.div_add_mod n 10
      rw [hne, List.foldl_append, ih (n / 10) a hdiv]
      simp [List.foldl, hm, List.length_append, pow_succ]
      ring_nf
      omega

lemma foldl_replicate_zero (k : Nat) :
    (List.replicate k '0').foldl (fun a c => 10 * a + (c.toNat - 48)) 0 = 0 := by
  induction k with
  | zero => rfl
  | succ k ih =>
    have hz : (10 * 0 + ('0'.toNat - 48)) = 0 := by decide
    rw [List.replicate_succ, List.foldl_cons, hz, ih]

lemma val_padZeroTo (w : Nat) (l : List Char) :
    (padZeroTo w l).foldl (fun a c => 10 * a + (c.toNat - 48)) 0 =
      l.foldl (fun a c => 10 * a + (c.toNat - 48)) 0 := by
  unfold padZeroTo
  rw [List.foldl_append, foldl_replicate_zero]

lemma padZeroTo_digits {w : Nat} {l : List Char}
    (h : ∀ c ∈ l, isDigitC c = true) :
    ∀ c ∈ padZeroTo w l, isDigitC c = true := by
  intro c hc
  rcases List.mem_append.1 hc with hc | hc
  · rw [List.eq_of_mem_replicate hc]
    decide
  · exact h c hc

lemma padZeroTo_ne_nil {w : Nat} {l : List Char} (h : l ≠ []) :
    padZeroTo w l ≠ [] := by
  intro he
  exact h (List.append_eq_nil.1 he).2

lemma atol_digits {l : List Char} (h0 : l ≠ [])
    (hd : ∀ c ∈ l, isDigitC c = true) :
    atol l =
      clampLong ((l.foldl (fun a c => 10 * a + (c.toNat - 48)) 0 : Nat) : Int) := by
  obtain ⟨c, t, rfl⟩ := List.exists_cons_of_ne_nil h0
  have hc := hd c (by simp)
  have hsp : isSpaceC c = false := isSpaceC_of_isDigitC hc
  obtain ⟨-, hm, hp⟩ := isDigitC_ne hc
  unfold atol
  simp only [List.dropWhile_cons, hsp, Bool.false_eq_true, if_false, List.head?_cons]
  rw [if_neg (by simp [hm]), if_neg (by simp [hp])]
  unfold digitsNum
  rw [takeWhile_eq_self_of hd]

lemma atol_fmt03d {d : Int} (h1 : 0 ≤ d) (h2 : d ≤ 999) : atol (fmt03d d) = d := by
  have hneg : ¬ d < 0 := by omega
  have hdig : ∀ c ∈ natDigits d.toNat, isDigitC c = true :=
    natDigitsF_digits d.toNat d.toNat le_rfl
  have hfd : fmt03d d = padZeroTo 3 (natDigits d.toNat) := by
    unfold fmt03d
    rw [if_neg hneg]
  rw [hfd, atol_digits
        (padZeroTo_ne_nil (show natDigits d.toNat ≠ [] from natDigitsF_ne_nil _ _))
        (padZeroTo_digits hdig),
      val_padZeroTo]
  have hv := natDigitsF_val d.toNat d.toNat 0 le_rfl
  rw [show (natDigits d.toNat) = natDigitsF d.toNat d.toNat from rfl, hv]
  have htn : d.toNat ≤ 999 := by omega
  have hcl : clampLong ((0 * 10 ^ (natDigitsF d.toNat d.toNat).length + d.toNat : Nat) : Int)
      = ((d.toNat : Nat) : Int) := by
    unfold clampLong LONG_MAX LONG_MIN
    rw [if_neg (by push_cast; omega), if_neg (by push_cast; omega)]
    push_cast
    ring
  rw [hcl, Int.toNat_of_nonneg h1]

lemma fmt03d_digits {d : Int} (h : ¬ d < 0) : ∀ c ∈ fmt03d d, isDigitC c = true := by
  have hfd : fmt03d d = padZeroTo 3 (natDigits d.toNat) := by
    unfold fmt03d
    rw [if_neg h]
  rw [hfd]
  exact padZeroTo_digits (natDigitsF_digits d.toNat d.toNat le_rfl)

lemma fmt03d_ne_nil (d : Int) : fmt03d d ≠ [] := by
  unfold fmt03d
  by_cases h : d < 0
  · simp [h]
  · rw [if_neg h]
    exact padZeroTo_ne_nil (natDigitsF_ne_nil _ _)

lemma alertChar_facts : ∀ m < 15,
    (Char.ofNat (65 + m)).toNat = 65 + m ∧
    isSpaceC (Char.ofNat (65 + m)) = false ∧
    Char.ofNat (65 + m) ≠ ',' := by decide

/-! ## Claim theorems -/

/-- C1: for every deviceId in [1,999] and alertCode in [0,14], decoding the
string produced by `encode(deviceId, alertCode)` ("TX" + zero-padded 3-digit
id + "," + letter 'A'+code) succeeds and yields exactly that deviceId and
alertCode. -/
theorem c1_encode_decode_roundtrip (d a : Int) (hd1 : 1 ≤ d) (hd2 : d ≤ 999)
    (ha1 : 0 ≤ a) (ha2 : a ≤ 14) :
    parseLoRaPacket (encodePacket d a) = some (d, a) := by
  have hm : a.toNat < 15 := by omega
  have hcode : getAlertCode a = Char.ofNat (65 + a.toNat) := by
    unfold getAlertCode
    rw [if_pos ⟨ha1, by unfold ALERT_COUNT; omega⟩]
  obtain ⟨hcv, hcs, hcc⟩ := alertChar_facts a.toNat hm
  have hneg : ¬ d < 0 := by omega
  have hfd := fmt03d_digits hneg
  have hfne := fmt03d_ne_nil d
  have hstrip : stripTX (encodePacket d a) = fmt03d d ++ ',' :: [getAlertCode a] := by
    unfold stripTX encodePacket
    simp
  have hcomma : commaIdx (fmt03d d ++ ',' :: [getAlertCode a]) =
      some (fmt03d d).length :=
    commaIdx_append (fun c hc => (isDigitC_ne (hfd c hc)).1)
  unfold parseLoRaPacket
  rw [hstrip]
  simp only [hcomma]
  have hlen : (fmt03d d).length ≠ 0 := by
    intro h
    exact hfne (List.eq_nil_of_length_eq_zero h)
  rw [if_neg hlen]
  have htake : (fmt03d d ++ ',' :: [getAlertCode a]).take (fmt03d d).length =
      fmt03d d := List.take_left _ _
  have hdrop : (fmt03d d ++ ',' :: [getAlertCode a]).drop ((fmt03d d).length + 1) =
      [getAlertCode a] := by
    have he : fmt03d d ++ ',' :: [getAlertCode a] =
        (fmt03d d ++ [',']) ++ [getAlertCode a] := by simp
    have hl : (fmt03d d).length + 1 = (fmt03d d ++ [',']).length := by simp
    rw [he, hl, List.drop_left]
  rw [htake, hdrop]
  have htrim : trimC [getAlertCode a] = [getAlertCode a] := by
    unfold trimC
    rw [hcode]
    simp [List.dropWhile, hcs]
  rw [htrim]
  have hraw : rawAlertIndex [getAlertCode a] = a := by
    unfold rawAlertIndex
    rw [hcode]
    have hcond : [Char.ofNat (65 + a.toNat)].length = 1 ∧
        65 ≤ [Char.ofNat (65 + a.toNat)].headI.toNat ∧
        [Char.ofNat (65 + a.toNat)].headI.toNat ≤ 79 := by
      refine ⟨by simp, ?_, ?_⟩ <;> simp only [List.headI, hcv] <;> omega
    rw [if_pos hcond]
    simp only [List.headI, hcv]
    push_cast
    omega
  rw [hraw]
  have hclamp : clampIndex a = a := by
    unfold clampIndex ALERT_COUNT
    rw [if_neg (by push_cast; omega)]
  rw [hclamp, atol_fmt03d (by omega) hd2]

/-- C1 witness at deviceId 3, alertCode 0. -/
theorem c1_witness :
    (1 ≤ (3 : Int) ∧ (3 : Int) ≤ 999 ∧ 0 ≤ (0 : Int) ∧ (0 : Int) ≤ 14) ∧
    parseLoRaPacket (encodePacket 3 0) = some (3, 0) :=
  ⟨by decide, c1_encode_decode_roundtrip 3 0 (by decide) (by decide) (by decide) (by decide)⟩

lemma mem_of_mem_dropWhile {p : Char → Bool} {l : List Char} {c : Char}
    (h : c ∈ l.dropWhile p) : c ∈ l := by
  induction l with
  | nil => simp at h
  | cons a t ih =>
    rw [List.dropWhile_cons] at h
    cases hpa : p a with
    | true =>
      rw [hpa] at h
      simp only [if_true] at h
      exact List.mem_cons_of_mem _ (ih h)
    | false =>
      rw [hpa] at h
      simpa using h

lemma digitsNum_eq_zero {l : List Char} (h : ∀ ch ∈ l, isDigitC ch = false) :
    digitsNum l = 0 := by
  unfold digitsNum
  rw [takeWhile_eq_nil_of h]
  rfl

lemma atol_no_digits {l : List Char} (h : ∀ ch ∈ l, isDigitC ch = false) :
    atol l = 0 := by
  have hs : ∀ ch ∈ l.dropWhile isSpaceC, isDigitC ch = false :=
    fun ch hch => h ch (mem_of_mem_dropWhile hch)
  have ht : ∀ ch ∈ (l.dropWhile isSpaceC).drop 1, isDigitC ch = false :=
    fun ch hch => hs ch (List.mem_of_mem_drop hch)
  unfold atol
  by_cases h1 : (l.dropWhile isSpaceC).head? = some '-'
  · rw [if_pos h1, digitsNum_eq_zero ht]
    decide
  · rw [if_neg h1]
    by_cases h2 : (l.dropWhile isSpaceC).head? = some '+'
    · rw [if_pos h2, digitsNum_eq_zero ht]
      decide
    · rw [if_neg h2, digitsNum_eq_zero hs]
      decide

lemma rxLoopStep_decode_fail {raw : List Char} (h : parseLoRaPacket raw = none)
    (now : Nat) (bootDone : Bool) (rssi : Int) (s : RxState) :
    rxLoopStep now bootDone (some raw) rssi s = rxLoopStep now bootDone none rssi s := by
  unfold rxLoopStep
  cases hs : s.currentScreen <;> simp [h]

/-- C2 counterexample: `"007,"` has a comma with an empty alert-code
substring after it; the claim says decode must reject it as Malformed, but
the code accepts it (`toInt("") == 0`), yielding deviceId 7, alert code 0. -/
theorem c2_counterexample :
    parseLoRaPacket "007,".data = some (7, 0) ∧
    parseLoRaPacket "007,".data ≠ none := by
  constructor
  · decide
  · decide

/-- C2 (amended): an input with no comma, or whose device-id substring
(after the optional "TX" strip) is empty, is rejected as malformed with the
receiver state unchanged; an empty alert-code substring after the comma is
NOT rejected — it parses as integer 0, so decode succeeds with alert code 0. -/
theorem c2_amended_malformed_rejection :
    ∀ raw : List Char,
      ((∀ ch ∈ raw, ch ≠ ',') ∨ (stripTX raw).head? = some ',' →
        parseLoRaPacket raw = none ∧
        (∀ now bootDone rssi s, rxLoopStep now bootDone (some raw) rssi s =
          rxLoopStep now bootDone none rssi s) ∧
        (∀ now bootDone rssi s, s.currentScreen = RxScreen.idle →
          rxLoopStep now bootDone (some raw) rssi s = s)) ∧
      (∀ c : Nat, commaIdx (stripTX raw) = some c → c ≠ 0 →
        (stripTX raw).length = c + 1 →
        parseLoRaPacket raw = some (atol ((stripTX raw).take c), 0)) := by
  intro raw
  constructor
  · intro h
    have hparse : parseLoRaPacket raw = none := by
      rcases h with h | h
      · have hsub : ∀ ch ∈ stripTX raw, ch ≠ ',' := by
          intro ch hch
          apply h
          unfold stripTX at hch
          by_cases ht : raw.take 2 = ['T', 'X']
          · rw [if_pos ht] at hch
            exact List.drop_subset _ _ hch
          · rwa [if_neg ht] at hch
        unfold parseLoRaPacket
        rw [commaIdx_eq_none hsub]
      · obtain ⟨t, ht⟩ : ∃ t, stripTX raw = ',' :: t := by
          cases hs : stripTX raw with
          | nil => rw [hs] at h; simp at h
          | cons c t =>
            rw [hs] at h
            simp only [List.head?_cons, Option.some.injEq] at h
            exact ⟨t, by rw [h]⟩
        unfold parseLoRaPacket
        rw [ht]
        simp [commaIdx]
    refine ⟨hparse, fun now b rssi s => rxLoopStep_decode_fail hparse now b rssi s, ?_⟩
    intro now b rssi s hs
    rw [rxLoopStep_decode_fail hparse]
    unfold rxLoopStep
    rw [hs]
    rfl
  · intro c hc hc0 hlen
    unfold parseLoRaPacket
    simp only [hc]
    rw [if_neg hc0]
    have hdrop : (stripTX raw).drop (c + 1) = [] := by
      rw [List.drop_eq_nil_iff, hlen]
    rw [hdrop]
    have h0 : clampIndex (rawAlertIndex (trimC [])) = 0 := by decide
    rw [h0]

/-- C2 witness for the amended claim: `"TX007"` (no comma) is rejected and
leaves the receiver state untouched; `"007,"` decodes as alert code 0. -/
theorem c2_witness :
    parseLoRaPacket "TX007".data = none ∧
    rxLoopStep 5 true (some ("TX007".data)) (-40)
      ⟨RxScreen.idle, 0, 0, 0, 0, [], 0⟩ = ⟨RxScreen.idle, 0, 0, 0, 0, [], 0⟩ ∧
    parseLoRaPacket "007,".data = some (7, 0) := by
  refine ⟨((c2_amended_malformed_rejection "TX007".data).1 (Or.inl (by decide))).1,
          ((c2_amended_malformed_rejection "TX007".data).1 (Or.inl (by decide))).2.2
            5 true (-40) _ rfl, ?_⟩
  have h := (c2_amended_malformed_rejection "007,".data).2 3 (by decide) (by decide)
    (by decide)
  exact h.trans (by decide)

/-- C3: every well-formed input (comma at position > 0 after the optional
"TX" strip) whose alert-code field evaluates outside [0,14] is not rejected:
decode succeeds with the alert code clamped to the last catalog index 14
("OTHER EMERGENCY"). -/
theorem c3_fail_open_clamp :
    ∀ (raw : List Char) (c : Nat), commaIdx (stripTX raw) = some c → c ≠ 0 →
      (rawAlertIndex (trimC ((stripTX raw).drop (c + 1))) < 0 ∨
        (15 : Int) ≤ rawAlertIndex (trimC ((stripTX raw).drop (c + 1)))) →
      parseLoRaPacket raw = some (atol ((stripTX raw).take c), 14) := by
  intro raw c hc hc0 hrange
  unfold parseLoRaPacket
  simp only [hc]
  rw [if_neg hc0]
  have hcl : clampIndex (rawAlertIndex (trimC ((stripTX raw).drop (c + 1)))) = 14 := by
    unfold clampIndex ALERT_COUNT
    rw [if_pos (by push_cast; exact hrange)]
    norm_num
  rw [hcl]

/-- C3 witness: decode("TX007,99") yields alert code 14, not an error. -/
theorem c3_witness : parseLoRaPacket "TX007,99".data = some (7, 14) := by
  have h := c3_fail_open_clamp "TX007,99".data 3 (by decide) (by decide) (by decide)
  exact h.trans (by decide)

/-- C9: an input with a comma at position > 0 (after the optional "TX"
strip) whose device-id substring contains no digit at all is not rejected:
decode succeeds and the deviceId comes out as 0 (`toInt` of a non-numeric
string). -/
theorem c9_nonnumeric_id_parses_zero :
    ∀ (raw : List Char) (c : Nat), commaIdx (stripTX raw) = some c → c ≠ 0 →
      (∀ ch ∈ (stripTX raw).take c, isDigitC ch = false) →
      parseLoRaPacket raw =
        some (0, clampIndex (rawAlertIndex (trimC ((stripTX raw).drop (c + 1))))) := by
  intro raw c hc hc0 hnd
  unfold parseLoRaPacket
  simp only [hc]
  rw [if_neg hc0, atol_no_digits hnd]

/-- C9 witness: decode("abc,A") succeeds with deviceId 0. -/
theorem c9_witness : parseLoRaPacket "abc,A".data = some (0, 0) := by
  have h := c9_nonnumeric_id_parses_zero "abc,A".data 3 (by decide) (by decide)
    (by decide)
  exact h.trans (by decide)

/-- Concrete alert records used for the bounded-history scenario of C5. -/
def histRec (i : Nat) : AlertRecord := ⟨(i : Int), 0, -40, i⟩

/-- C5: the history size never exceeds the capacity 10 under any sequence of
pushes from empty; a push at capacity evicts index 0 by shifting all elements
left before appending; pushing 15 records into an empty history leaves
exactly the last 10, oldest to newest. -/
theorem c5_history_bound :
    (∀ rs : List AlertRecord, (rs.foldl pushHistory []).length ≤ HISTORY_MAX_ITEMS) ∧
    (∀ (h : List AlertRecord) (r : AlertRecord), h.length = HISTORY_MAX_ITEMS →
      pushHistory h r = h.drop 1 ++ [r]) ∧
    ((List.range 15).map histRec).foldl pushHistory [] =
      (List.range' 5 10).map histRec := by
  refine ⟨?_, ?_, by decide⟩
  · have key : ∀ (rs h : List AlertRecord), h.length ≤ HISTORY_MAX_ITEMS →
        (rs.foldl pushHistory h).length ≤ HISTORY_MAX_ITEMS := by
      intro rs
      induction rs with
      | nil =>
        intro h hh
        simpa using hh
      | cons r t ih =>
        intro h hh
        rw [List.foldl_cons]
        apply ih
        unfold pushHistory HISTORY_MAX_ITEMS
        by_cases hc : (10 : Nat) ≤ h.length
        · rw [if_pos hc]
          simp only [List.length_append, List.length_take, List.length_singleton]
          omega
        · rw [if_neg hc]
          simp only [List.length_append, List.length_singleton]
          unfold HISTORY_MAX_ITEMS at hc
          omega
    intro rs
    exact key rs [] (by simp)
  · intro h r hh
    unfold pushHistory
    rw [if_pos (le_of_eq hh.symm)]
    have hl : (h.drop 1).length ≤ HISTORY_MAX_ITEMS - 1 := by
      simp [hh]
    rw [List.take_of_length_le hl]

/-- C5 witness: the eviction equation applied at a concrete full history. -/
theorem c5_witness :
    pushHistory ((List.range 10).map histRec) (histRec 10) =
      ((List.range 10).map histRec).drop 1 ++ [histRec 10] :=
  c5_history_bound.2.1 ((List.range 10).map histRec) (histRec 10) (by decide)

lemma transmitAlert_sent {now : Nat} {radioOk : Bool} {s : TxState}
    (h : s.loraInitialized = true) :
    (transmitAlert now radioOk s).2.1 =
      some (encodePacket DEVICE_ID_TX s.selectedAlertIndex) := by
  unfold transmitAlert
  rw [h]
  cases radioOk <;> rfl

lemma transmitAlert_success {now : Nat} {radioOk : Bool} {s : TxState}
    (h : s.loraInitialized = true) :
    (transmitAlert now radioOk s).1 = radioOk := by
  unfold transmitAlert
  rw [h]
  cases radioOk <;> rfl

lemma transmitAlert_total {now : Nat} {radioOk : Bool} {s : TxState}
    (h : s.loraInitialized = true) :
    (transmitAlert now radioOk s).2.2.totalTransmissions =
      s.totalTransmissions + 1 := by
  unfold transmitAlert
  rw [h]
  cases radioOk <;> rfl

lemma transmitAlert_retryCount {now : Nat} {radioOk : Bool} {s : TxState} :
    (transmitAlert now radioOk s).2.2.retryCount = s.retryCount := by
  unfold transmitAlert
  by_cases h : s.loraInitialized = false
  · rw [if_pos h]
  · rw [if_neg h]
    cases radioOk <;> rfl

/-- A transmitter state with the radio initialized and an out-of-range
selected alert index (15), used for C4. -/
def txStateOutOfRange : TxState :=
  ⟨TxScreen.confirm, TxScreen.menu, 15, 0, 0, 0, 0, 0, false, 0, 0, 0, true⟩

/-- C4 counterexample: for alertCode 15 (outside [0,14]) the encoder does
not return an error — `getAlertCode` yields the sentinel 'X', the packet
"TX003,X" is still produced, and `transmitAlert` still transmits it
(the lifetime counter increments). -/
theorem c4_counterexample :
    getAlertCode 15 = 'X' ∧
    encodePacket DEVICE_ID_TX 15 = "TX003,X".data ∧
    (transmitAlert 0 true txStateOutOfRange).2.1 = some ("TX003,X".data) ∧
    (transmitAlert 0 true txStateOutOfRange).2.2.totalTransmissions =
      txStateOutOfRange.totalTransmissions + 1 := by
  refine ⟨by decide, by decide, by decide, by decide⟩

/-- C4 (amended): the encoder performs no range validation at all.  For
every alertCode outside [0,14], `getAlertCode` returns the sentinel 'X',
the packet "TX" + %03d(deviceId) + ",X" is still built, and with the radio
initialized `transmitAlert` transmits it anyway; the deviceId is the
compile-time constant `DEVICE_ID` = 3 and is never range-checked. -/
theorem c4_amended_no_range_check :
    ∀ a : Int, (a < 0 ∨ 15 ≤ a) →
      getAlertCode a = 'X' ∧
      encodePacket DEVICE_ID_TX a = "TX003,X".data ∧
      (∀ (now : Nat) (s : TxState), s.loraInitialized = true →
        s.selectedAlertIndex = a →
        (transmitAlert now true s).2.1 = some ("TX003,X".data) ∧
        (transmitAlert now true s).2.2.totalTransmissions =
          s.totalTransmissions + 1) := by
  intro a ha
  have hga : getAlertCode a = 'X' := by
    unfold getAlertCode
    rw [if_neg]
    unfold ALERT_COUNT
    push_cast
    omega
  have henc : encodePacket DEVICE_ID_TX a = "TX003,X".data := by
    unfold encodePacket
    rw [hga]
    decide
  refine ⟨hga, henc, ?_⟩
  intro now s hl hsel
  refine ⟨?_, transmitAlert_total hl⟩
  rw [transmitAlert_sent hl, hsel, henc]

/-- C4 witness for the amended claim, at alertCode 15. -/
theorem c4_witness :
    ((15 : Int) < 0 ∨ (15 : Int) ≤ 15) ∧
    getAlertCode 15 = 'X' ∧
    (transmitAlert 0 true txStateOutOfRange).2.1 = some ("TX003,X".data) := by
  have h := c4_amended_no_range_check 15 (by decide)
  exact ⟨by decide, h.1, (h.2.2 0 txStateOutOfRange (by decide) (by decide)).1⟩

lemma handleResultInput_fail_noRetry {now : Nat} {radioOk : Bool} {s : TxState}
    (hf : s.lastTransmitSuccess = false)
    (hg : ¬ s.retryCount < (MAX_RETRY_ATTEMPTS : Int) - 1) :
    handleResultInput now radioOk '*' s = s := by
  unfold handleResultInput
  rw [if_neg (by simp [hf]), if_pos rfl, if_neg hg]

lemma handleResultInput_fail_retry {now : Nat} {radioOk : Bool} {s : TxState}
    (hf : s.lastTransmitSuccess = false)
    (hg : s.retryCount < (MAX_RETRY_ATTEMPTS : Int) - 1) :
    handleResultInput now radioOk '*' s =
      { (transmitAlert now radioOk
          { s with retryCount := s.retryCount + 1,
                   currentScreen := TxScreen.sending }).2.2 with
        lastTransmitSuccess := (transmitAlert now radioOk
          { s with retryCount := s.retryCount + 1,
                   currentScreen := TxScreen.sending }).1,
        currentScreen := TxScreen.result, resultStartTime := now } := by
  unfold handleResultInput
  rw [if_neg (by simp [hf]), if_pos rfl, if_pos hg]

lemma handleResultInput_fail_menu {now : Nat} {radioOk : Bool} {s : TxState}
    (hf : s.lastTransmitSuccess = false) :
    handleResultInput now radioOk '#' s =
      { s with retryCount := 0, currentScreen := TxScreen.menu } := by
  unfold handleResultInput
  rw [if_neg (by simp [hf]), if_neg (by decide), if_pos rfl]

lemma handleResultInput_fail_other {now : Nat} {radioOk : Bool} {k : Char}
    {s : TxState} (hf : s.lastTransmitSuccess = false)
    (h1 : k ≠ '*') (h2 : k ≠ '#') :
    handleResultInput now radioOk k s = s := by
  unfold handleResultInput
  rw [if_neg (by simp [hf]), if_neg h1, if_neg h2]

lemma handleResultInput_retry_effect {now : Nat} {radioOk : Bool} {s : TxState}
    (hf : s.lastTransmitSuccess = false)
    (hg : s.retryCount < (MAX_RETRY_ATTEMPTS : Int) - 1)
    (hl : s.loraInitialized = true) :
    (handleResultInput now radioOk '*' s).retryCount = s.retryCount + 1 ∧
    (handleResultInput now radioOk '*' s).totalTransmissions =
      s.totalTransmissions + 1 ∧
    (handleResultInput now radioOk '*' s).currentScreen = TxScreen.result ∧
    (handleResultInput now radioOk '*' s).lastTransmitSuccess = radioOk := by
  have hl1 : TxState.loraInitialized
      { s with retryCount := s.retryCount + 1,
               currentScreen := TxScreen.sending } = true := hl
  rw [handleResultInput_fail_retry hf hg]
  refine ⟨?_, ?_, rfl, ?_⟩
  · show (transmitAlert now radioOk
      { s with retryCount := s.retryCount + 1,
               currentScreen := TxScreen.sending }).2.2.retryCount =
        s.retryCount + 1
    rw [transmitAlert_retryCount]
  · show (transmitAlert now radioOk
      { s with retryCount := s.retryCount + 1,
               currentScreen := TxScreen.sending }).2.2.totalTransmissions =
        s.totalTransmissions + 1
    rw [transmitAlert_total hl1]
  · show (transmitAlert now radioOk
      { s with retryCount := s.retryCount + 1,
               currentScreen := TxScreen.sending }).1 = radioOk
    rw [transmitAlert_success hl1]

/-- Initial transmitter state for the concrete retry trace of C6: on the
Confirm screen with the radio initialized and no transmissions yet. -/
def txConfirm0 : TxState :=
  ⟨TxScreen.confirm, TxScreen.menu, 0, 0, 0, 0, 0, 0, false, 0, 0, 0, true⟩

/-- C6: `canRetry` is exactly `attemptNumber < MAX_RETRY_ATTEMPTS - 1` with
`MAX_RETRY_ATTEMPTS = 3`; when it is false the retry key starts no further
transmission; each retry re-enters Sending transmitting once more with the
attempt counter incremented by 1; and after 3 consecutive failed attempts
(the initial send plus 2 retries) `canRetry` is false and a further retry
key press is a no-op. -/
theorem c6_retry_bound :
    (∀ s : TxState,
      canRetry s = true ↔ s.retryCount < (MAX_RETRY_ATTEMPTS : Int) - 1) ∧
    (∀ (now : Nat) (radioOk : Bool) (s : TxState),
      s.lastTransmitSuccess = false → canRetry s = false →
      handleResultInput now radioOk '*' s = s) ∧
    (∀ (now : Nat) (radioOk : Bool) (s : TxState),
      s.lastTransmitSuccess = false → canRetry s = true →
      s.loraInitialized = true →
      (handleResultInput now radioOk '*' s).retryCount = s.retryCount + 1 ∧
      (handleResultInput now radioOk '*' s).totalTransmissions =
        s.totalTransmissions + 1 ∧
      (handleResultInput now radioOk '*' s).currentScreen = TxScreen.result ∧
      (handleResultInput now radioOk '*' s).lastTransmitSuccess = radioOk) ∧
    ((handleResultInput 0 false '*' (handleResultInput 0 false '*'
        (handleConfirmInput 0 false '*' txConfirm0))).retryCount = 2 ∧
     canRetry (handleResultInput 0 false '*' (handleResultInput 0 false '*'
        (handleConfirmInput 0 false '*' txConfirm0))) = false ∧
     handleResultInput 0 false '*' (handleResultInput 0 false '*'
        (handleResultInput 0 false '*'
          (handleConfirmInput 0 false '*' txConfirm0))) =
       handleResultInput 0 false '*' (handleResultInput 0 false '*'
        (handleConfirmInput 0 false '*' txConfirm0)) ∧
     (handleResultInput 0 false '*' (handleResultInput 0 false '*'
        (handleConfirmInput 0 false '*' txConfirm0))).totalTransmissions = 3) := by
  refine ⟨?_, ?_, ?_, by decide⟩
  · intro s
    simp [canRetry]
  · intro now radioOk s hf hcr
    have hg : ¬ s.retryCount < (MAX_RETRY_ATTEMPTS : Int) - 1 := by
      simpa [canRetry] using hcr
    exact handleResultInput_fail_noRetry hf hg
  · intro now radioOk s hf hcr hl
    have hg : s.retryCount < (MAX_RETRY_ATTEMPTS : Int) - 1 := by
      simpa [canRetry] using hcr
    exact handleResultInput_retry_effect hf hg hl

/-- C6 witness: the no-op and retry-effect parts applied at concrete
states. -/
theorem c6_witness :
    handleResultInput 0 false '*'
      (⟨TxScreen.result, TxScreen.menu, 0, 0, 0, 0, 0, 0, false, 2, 3, 0, true⟩ : TxState) =
      ⟨TxScreen.result, TxScreen.menu, 0, 0, 0, 0, 0, 0, false, 2, 3, 0, true⟩ ∧
    (handleResultInput 7 true '*'
      (⟨TxScreen.result, TxScreen.menu, 0, 0, 0, 5, 0, 0, false, 0, 1, 0, true⟩ : TxState)).retryCount = 1 := by
  constructor
  · exact c6_retry_bound.2.1 0 false _ (by decide) (by decide)
  · exact (c6_retry_bound.2.2.1 7 true _ (by decide) (by decide) (by decide)).1

/-- C7: from Result the machine returns to Menu automatically exactly when
the last transmission succeeded and the result timeout elapsed; on failure
the state never changes without a key press, and the only key-driven exits
are '#' (back to Menu, attempt counter reset to 0) and '*' while retries
remain (which transmits again with the attempt counter incremented,
bounded by MAX_RETRY_ATTEMPTS). -/
theorem c7_result_transitions :
    ∀ (now : Nat) (radioOk : Bool) (s : TxState),
      s.currentScreen = TxScreen.result →
      (((resultLoopStep now radioOk none s).currentScreen = TxScreen.menu) ↔
        (s.lastTransmitSuccess = true ∧
          RESULT_SUCCESS_TIME ≤ now - s.resultStartTime)) ∧
      (s.lastTransmitSuccess = false → resultLoopStep now radioOk none s = s) ∧
      (s.lastTransmitSuccess = false → handleResultInput now radioOk '#' s =
        { s with retryCount := 0, currentScreen := TxScreen.menu }) ∧
      (s.lastTransmitSuccess = false →
        s.retryCount < (MAX_RETRY_ATTEMPTS : Int) - 1 → s.loraInitialized = true →
        (handleResultInput now radioOk '*' s).retryCount = s.retryCount + 1 ∧
        (handleResultInput now radioOk '*' s).totalTransmissions =
          s.totalTransmissions + 1 ∧
        (handleResultInput now radioOk '*' s).currentScreen = TxScreen.result) := by
  intro now radioOk s hsc
  have hstep : resultLoopStep now radioOk none s =
      if s.lastTransmitSuccess = true ∧ 0 < RESULT_SUCCESS_TIME ∧
          RESULT_SUCCESS_TIME ≤ now - s.resultStartTime then
        { s with currentScreen := TxScreen.menu }
      else s := by
    unfold resultLoopStep
    rfl
  refine ⟨?_, ?_, ?_, ?_⟩
  · rw [hstep]
    by_cases hc : s.lastTransmitSuccess = true ∧ 0 < RESULT_SUCCESS_TIME ∧
        RESULT_SUCCESS_TIME ≤ now - s.resultStartTime
    · rw [if_pos hc]
      constructor
      · intro _
        exact ⟨hc.1, hc.2.2⟩
      · intro _
        rfl
    · rw [if_neg hc]
      constructor
      · intro hm
        rw [hsc] at hm
        exact absurd hm (by decide)
      · intro hr
        exact absurd ⟨hr.1, by decide, hr.2⟩ hc
  · intro hf
    rw [hstep, if_neg (by simp [hf])]
  · intro hf
    exact handleResultInput_fail_menu hf
  · intro hf hg hl
    exact ⟨(handleResultInput_retry_effect hf hg hl).1,
           (handleResultInput_retry_effect hf hg hl).2.1,
           (handleResultInput_retry_effect hf hg hl).2.2.1⟩

/-- C7 witness: a concrete successful Result state auto-returns to Menu
after the timeout; a concrete failed Result state is unchanged by a
key-less loop iteration. -/
theorem c7_witness :
    ((resultLoopStep 2000 true none
      (⟨TxScreen.result, TxScreen.menu, 0, 0, 0, 0, 0, 0, true, 0, 1, 1,
        true⟩ : TxState)).currentScreen = TxScreen.menu) ∧
    resultLoopStep 100 true none
      (⟨TxScreen.result, TxScreen.menu, 0, 0, 0, 0, 0, 0, false, 0, 1, 0,
        true⟩ : TxState) =
      ⟨TxScreen.result, TxScreen.menu, 0, 0, 0, 0, 0, 0, false, 0, 1, 0,
        true⟩ := by
  constructor
  · exact ((c7_result_transitions 2000 true _ rfl).1).2 ⟨rfl, by decide⟩
  · exact (c7_result_transitions 100 true _ rfl).2.1 rfl

lemma handleKeyPress_result {now : Nat} {radioOk : Bool} {k : Char}
    {s : TxState} (hsc : s.currentScreen = TxScreen.result) (hk : k ≠ '\x00') :
    handleKeyPress now radioOk k s =
      { handleResultInput now radioOk k s with lastKeyPressTime := now } := by
  unfold handleKeyPress
  rw [if_neg hk, hsc]

/-- C10: in Result after a failed transmission, once the retry counter has
reached MAX_RETRY_ATTEMPTS - 1, pressing '*' is a complete no-op — no
transmission, the screen, retry counter and lifetime counters unchanged
(only the keypress timestamp is stamped) — and the only key that leaves the
Result screen is '#'. -/
theorem c10_exhausted_retry_noop :
    ∀ (now : Nat) (radioOk : Bool) (s : TxState),
      s.currentScreen = TxScreen.result →
      s.lastTransmitSuccess = false →
      (MAX_RETRY_ATTEMPTS : Int) - 1 ≤ s.retryCount →
      handleResultInput now radioOk '*' s = s ∧
      handleKeyPress now radioOk '*' s = { s with lastKeyPressTime := now } ∧
      (∀ k : Char,
        (handleKeyPress now radioOk k s).currentScreen ≠ TxScreen.result →
        k = '#') ∧
      handleKeyPress now radioOk '#' s =
        { s with retryCount := 0, currentScreen := TxScreen.menu,
                 lastKeyPressTime := now } := by
  intro now radioOk s hsc hf hge
  have hg : ¬ s.retryCount < (MAX_RETRY_ATTEMPTS : Int) - 1 := by omega
  have hnoop : handleResultInput now radioOk '*' s = s :=
    handleResultInput_fail_noRetry hf hg
  refine ⟨hnoop, ?_, ?_, ?_⟩
  · rw [handleKeyPress_result hsc (by decide), hnoop]
  · intro k hk
    by_cases hk0 : k = '\x00'
    · have hid : handleKeyPress now radioOk k s = s := by
        unfold handleKeyPress
        rw [if_pos hk0]
      rw [hid] at hk
      exact absurd hsc hk
    · rw [handleKeyPress_result hsc hk0] at hk
      by_cases hks : k = '*'
      · subst hks
        rw [hnoop] at hk
        exact absurd hsc hk
      · by_cases hkh : k = '#'
        · exact hkh
        · rw [handleResultInput_fail_other hf hks hkh] at hk
          exact absurd hsc hk
  · rw [handleKeyPress_result hsc (by decide), handleResultInput_fail_menu hf]

/-- C10 witness at a concrete exhausted-retry state. -/
theorem c10_witness :
    handleResultInput 9 true '*'
      (⟨TxScreen.result, TxScreen.menu, 0, 0, 0, 0, 0, 0, false, 2, 3, 0,
        true⟩ : TxState) =
      ⟨TxScreen.result, TxScreen.menu, 0, 0, 0, 0, 0, 0, false, 2, 3, 0,
        true⟩ ∧
    handleKeyPress 9 true '#'
      (⟨TxScreen.result, TxScreen.menu, 0, 0, 0, 0, 0, 0, false, 2, 3, 0,
        true⟩ : TxState) =
      ⟨TxScreen.menu, TxScreen.menu, 0, 0, 0, 0, 9, 0, false, 0, 3, 0,
        true⟩ := by
  have h := c10_exhausted_retry_noop 9 true
    (⟨TxScreen.result, TxScreen.menu, 0, 0, 0, 0, 0, 0, false, 2, 3, 0,
      true⟩ : TxState) rfl rfl (by decide)
  exact ⟨h.1, h.2.2.2⟩

lemma drop_one_append {α : Type} {l r : List α} (h : l ≠ []) :
    (l ++ r).drop 1 = l.drop 1 ++ r := by
  cases l with
  | nil => exact absurd rfl h
  | cons a t => simp

lemma pushHistory_snoc {h : List AlertRecord} {x r : AlertRecord}
    (hlen : (h ++ [x]).length ≤ HISTORY_MAX_ITEMS) :
    ∃ h0 : List AlertRecord,
      pushHistory (h ++ [x]) r = h0 ++ [x, r] ∧ (h0 = h ∨ h0 = h.drop 1) := by
  unfold pushHistory
  by_cases hfull : HISTORY_MAX_ITEMS ≤ (h ++ [x]).length
  · refine ⟨h.drop 1, ?_, Or.inr rfl⟩
    rw [if_pos hfull]
    have hne : h ≠ [] := by
      intro he
      rw [he] at hfull
      simp [HISTORY_MAX_ITEMS] at hfull
    rw [drop_one_append hne]
    have hl9 : (h.drop 1 ++ [x]).length ≤ HISTORY_MAX_ITEMS - 1 := by
      simp only [List.length_append, List.length_drop, List.length_singleton] at *
      unfold HISTORY_MAX_ITEMS at *
      omega
    rw [List.take_of_length_le hl9, List.append_assoc]
    rfl
  · refine ⟨h, ?_, Or.inl rfl⟩
    rw [if_neg hfull, List.append_assoc]
    rfl

/-- C8: a successfully decoded packet arriving while the Alert screen shows
another alert immediately supersedes it on screen (the shown alert becomes
the new one and the display timer restarts) and both alerts sit in
AlertHistory in arrival order — no decoded alert is dropped because the
display was busy. -/
theorem c8_alert_supersede_and_history :
    ∀ (now : Nat) (raw : List Char) (rssi : Int) (s : RxState) (d a : Int)
      (h : List AlertRecord) (x : AlertRecord),
      s.currentScreen = RxScreen.alert →
      s.alertHistory = h ++ [x] →
      s.alertHistory.length ≤ HISTORY_MAX_ITEMS →
      x.deviceId = s.lastDeviceId → x.alertIndex = s.lastAlertIndex →
      parseLoRaPacket raw = some (d, a) →
      ∃ h0 : List AlertRecord,
        rxLoopStep now true (some raw) rssi s =
          { s with lastDeviceId := d, lastAlertIndex := a, lastRssi := rssi,
                   alertReceivedTime := now,
                   alertHistory := h0 ++ [x, ⟨d, a, rssi, now⟩],
                   totalAlertsReceived := s.totalAlertsReceived + 1 } ∧
        (h0 = h ∨ h0 = h.drop 1) := by
  intro now raw rssi s d a h x hsc hh hlen hxd hxa hp
  have hsri : shouldReturnToIdle now (drawAlertScreenState now d a rssi s) =
      false := by
    unfold shouldReturnToIdle drawAlertScreenState addToHistory
    rw [if_pos hsc]
    simp [ALERT_DISPLAY_TIME]
  have hdraw : rxLoopStep now true (some raw) rssi s =
      drawAlertScreenState now d a rssi s := by
    unfold rxLoopStep
    simp only [hsc, Option.some_bind, hp, hsri, Bool.false_eq_true, if_false]
  rw [hh] at hlen
  obtain ⟨h0, hph, hcase⟩ :=
    pushHistory_snoc (x := x) (r := ⟨d, a, rssi, now⟩) hlen
  refine ⟨h0, ?_, hcase⟩
  rw [hdraw]
  show ({ s with lastDeviceId := d, lastAlertIndex := a, lastRssi := rssi,
                 alertReceivedTime := now,
                 alertHistory := pushHistory s.alertHistory ⟨d, a, rssi, now⟩,
                 totalAlertsReceived := s.totalAlertsReceived + 1 } : RxState) = _
  rw [hh, hph]

/-- Receiver state showing an alert (device 1, alert 2), used for C8. -/
def rxAlertState : RxState :=
  ⟨RxScreen.alert, 1, 2, -50, 100, [⟨1, 2, -50, 100⟩], 1⟩

/-- C8 witness: a packet "TX003,B" arriving at the concrete Alert state. -/
theorem c8_witness :
    ∃ h0 : List AlertRecord,
      rxLoopStep 200 true (some ("TX003,B".data)) (-60) rxAlertState =
        { rxAlertState with
            lastDeviceId := 3, lastAlertIndex := 1, lastRssi := -60,
            alertReceivedTime := 200,
            alertHistory := h0 ++ [⟨1, 2, -50, 100⟩, ⟨3, 1, -60, 200⟩],
            totalAlertsReceived := rxAlertState.totalAlertsReceived + 1 } ∧
      (h0 = ([] : List AlertRecord) ∨ h0 = List.drop 1 ([] : List AlertRecord)) :=
  c8_alert_supersede_and_history 200 ("TX003,B".data) (-60) rxAlertState 3 1 []
    ⟨1, 2, -50, 100⟩ rfl rfl (by decide) rfl rfl (by decide)
